import Mathlib

/-!
Verification of the Corsi block-tapping task progression engine
(`src/corsi-backend/corsi_engine.py`), the backend session-start endpoint
(`src/corsi-backend/main.py`) and the candidate-metadata validator
(`src/utils/validation.py`).

The engine is shallowly embedded: Python dictionaries become Lean
structures, the mutable `CorsiEngine` instance state becomes an explicit
`EngineState` passed and returned, machine integers are `Nat`/`Int`
(no overflow is reachable at these magnitudes), and Python float division
in accuracy computations is embedded as exact rational division — for the
comparisons the code performs (`accuracy >= 0.5` with trial counts far
below 2^50) the float and rational comparisons agree, because
`c / n >= 0.5` is equivalent to the integer comparison `2 * c >= n` and
the nearest float to `c / n` is far closer to `c / n` than `1 / (2 * n)`.

The `timestamp` field of a trial record (`datetime.now()` in the source)
is omitted from the embedding: it is wall-clock input, no claim mentions
it, and no engine decision reads it.
-/

namespace Corsi

/-- `CorsiEngine.MIN_SPAN` in corsi_engine.py. -/
def MIN_SPAN : Nat := 2

/-- `CorsiEngine.MAX_SPAN` in corsi_engine.py. -/
def MAX_SPAN : Nat := 8

/-- `CorsiEngine.TRIALS_PER_SPAN` in corsi_engine.py. -/
def TRIALS_PER_SPAN : Nat := 2

/-- `CorsiEngine.NUM_BLOCKS` in corsi_engine.py. -/
def NUM_BLOCKS : Nat := 9

/-- One entry of `CorsiEngine.results`: the dictionary appended by
`submit_trial` (span_length, trial_number, sequence, response, correct;
the wall-clock `timestamp` is omitted, see the file header). -/
structure TrialRecord where
  span_length : Nat
  trial_number : Nat
  sequence : List Int
  response : List Int
  correct : Bool
  deriving Repr, DecidableEq

/-- The mutable state of a `CorsiEngine` instance: `results`,
`current_span`, `current_trial`, `finished`. -/
structure EngineState where
  results : List TrialRecord
  current_span : Nat
  current_trial : Nat
  finished : Bool
  deriving Repr, DecidableEq

/-- `CorsiEngine.__init__`: `results = []`, `current_span = MIN_SPAN`,
`current_trial = 1`, `finished = False`. -/
def initState : EngineState :=
  { results := [], current_span := MIN_SPAN, current_trial := 1, finished := false }

/-- The list comprehension `[r for r in results if r["span_length"] == span]`
used by both `submit_trial` and `calculate_corsi_span`. -/
def spanTrials (results : List TrialRecord) (span : Nat) : List TrialRecord :=
  results.filter (fun r => r.span_length == span)

/-- `sum(r["correct"] for r in trials)`: Python sums booleans as 0/1, so the
sum is the number of correct records. -/
def correctCount (trials : List TrialRecord) : Nat :=
  (trials.filter (fun r => r.correct)).length

/-- The `self.results.append({...})` step of `CorsiEngine.submit_trial`:
the results list after the new record (with the pre-call span and trial
number, and `correct = (sequence == response)`) is appended. -/
def submitResults (s : EngineState) (sequence response : List Int) : List TrialRecord :=
  s.results ++ [{ span_length := s.current_span, trial_number := s.current_trial,
                  sequence := sequence, response := response,
                  correct := sequence == response }]

/-- `CorsiEngine.submit_trial(sequence, response)`. Returns the post-call
engine state together with the `correct` flag of the returned dictionary
(the returned `finished` and `next_state` fields are readable off the
returned state). The Python locals `correct`, `span_trials` are inlined. -/
def submit_trial (s : EngineState) (sequence response : List Int) :
    EngineState × Bool :=
  if TRIALS_PER_SPAN ≤ (spanTrials (submitResults s sequence response) s.current_span).length then
    if correctCount (spanTrials (submitResults s sequence response) s.current_span) = 0 then
      -- Discontinue rule: both trials at this span failed
      ({ s with results := submitResults s sequence response,
                finished := true, current_trial := 1 }, sequence == response)
    else if s.current_span < MAX_SPAN then
      ({ s with results := submitResults s sequence response,
                current_span := s.current_span + 1, current_trial := 1 }, sequence == response)
    else
      ({ s with results := submitResults s sequence response,
                finished := true, current_trial := 1 }, sequence == response)
  else
    ({ s with results := submitResults s sequence response,
              current_trial := s.current_trial + 1 }, sequence == response)

/-- The distinct span lengths present in `results`:
`spans = {r["span_length"] for r in self.results}`. -/
def spansOf (results : List TrialRecord) : List Nat :=
  (results.map (fun r => r.span_length)).dedup

/-- `accuracy = sum(t["correct"] for t in trials) / len(trials)`, embedded
as exact rational division (see the file header for why this is faithful
to the float comparison against 0.5). -/
def accuracy (trials : List TrialRecord) : ℚ :=
  (correctCount trials : ℚ) / (trials.length : ℚ)

/-- The key set of the `span_scores` dictionary built by
`CorsiEngine.calculate_corsi_span`: the spans present in `results` whose
accuracy is at least 0.5. -/
def qualifyingSpans (results : List TrialRecord) : List Nat :=
  (spansOf results).filter (fun span => (1 : ℚ) / 2 ≤ accuracy (spanTrials results span))

/-- `CorsiEngine.calculate_corsi_span`:
`max(span_scores.keys()) if span_scores else 0`. -/
def calculate_corsi_span (results : List TrialRecord) : Nat :=
  (qualifyingSpans results).foldr max 0

/-- The `session_data` dictionary built by `CorsiEngine.save_session`
(`test_date` and the empty `data_files` list are omitted: wall-clock and
constant fields no claim mentions). -/
structure SessionSummary where
  session_number : Int
  corsi_span : Nat
  total_trials : Nat
  correct_trials : Nat
  accuracy : ℚ
  deriving Repr, DecidableEq

/-- `CorsiEngine.save_session`. Returns `none` for the empty dictionary
`{}` the Python returns when `results` is empty — that early return happens
before the two `self.db.save_*` calls, so `none` also means nothing was
persisted; `some summary` corresponds to the computed `session_data`, which
is what the code hands to the persistence collaborator. -/
def save_session (results : List TrialRecord) (session_number : Int) :
    Option SessionSummary :=
  if results.isEmpty then none
  else
    some { session_number := session_number,
           corsi_span := calculate_corsi_span results,
           total_trials := results.length,
           correct_trials := correctCount results,
           accuracy := ((correctCount results : ℚ) / (results.length : ℚ)) * 100 }

/-- Accumulator loop for decimal digit parsing: ASCII codes 48–57 are the
digits. Structural recursion on the character list so that concrete
strings evaluate inside the kernel. -/
def decNatAux : List Char → Nat → Option Nat
  | [], acc => some acc
  | c :: cs, acc =>
      if 48 ≤ c.toNat ∧ c.toNat ≤ 57 then decNatAux cs (acc * 10 + (c.toNat - 48))
      else none

/-- Modelled from Python's built-in `int(str)` conversion as used on the
decimal session strings of these flows: an optional sign followed by one
or more ASCII digits parses to the signed value; anything else raises
`ValueError`, embedded as `none`. (Python additionally strips surrounding
whitespace and allows underscores between digits; such inputs occur in no
claim and are conservatively rejected here.) -/
def py_int? (s : String) : Option Int :=
  match s.data with
  | [] => none
  | '-' :: cs =>
      if cs.isEmpty then none else (decNatAux cs 0).map (fun n => -(n : Int))
  | '+' :: cs =>
      if cs.isEmpty then none else (decNatAux cs 0).map (fun n => (n : Int))
  | cs => (decNatAux cs 0).map (fun n => (n : Int))

/-- `validate_candidate_info` in src/utils/validation.py. The `session`
field arrives as a string (the GUI dialog collects strings); Python runs
`int(info["session"])` and treats a `ValueError` — unparsable string — or
a parsed value `< 1` as validation failure. Empty `candidate_name` or
`candidate_id` strings are falsy in Python. -/
def validate_candidate_info (candidate_name candidate_id session : String) : Bool :=
  if candidate_name = "" || candidate_id = "" then false
  else
    match py_int? session with
    | none => false
    | some n => decide (1 ≤ n)

/-- A JSON value for the `session` field of the request body of
`POST /api/start-session`, as far as the claims need: an integer, a
string, or null. -/
inductive JsonValue where
  | jint (n : Int)
  | jstr (s : String)
  | jnull
  deriving Repr, DecidableEq

/-- Modelled from the spec and the pydantic field declaration
`session: int = 1` on `CandidateInfo` in src/corsi-backend/main.py: the
request-body validation FastAPI runs before the `start_session` handler.
A missing field takes the default 1, an integer is accepted as-is (no
positivity constraint is declared), a numeric string is coerced, and null
or a non-numeric string is a validation error (HTTP 422), which aborts the
request before the handler body runs. -/
def parse_session_field : Option JsonValue → Except String Int
  | none => .ok 1
  | some (.jint n) => .ok n
  | some (.jstr str) =>
      match py_int? str with
      | some n => .ok n
      | none => .error "value is not a valid integer"
  | some .jnull => .error "none is not an allowed value"

/-- The candidate fields of the parsed `CandidateInfo` body that the
claims mention. -/
structure CandidateInfo where
  candidate_name : String
  candidate_id : String
  session : Int
  deriving Repr, DecidableEq

/-- The `start_session` handler in src/corsi-backend/main.py composed with
the request-body validation: on a parse error no engine is constructed and
the error is returned; otherwise the handler unconditionally constructs a
`CorsiEngine` (state `initState`) for the parsed candidate — the handler
body itself performs no further validation. -/
def start_session (candidate_name candidate_id : String)
    (sessionField : Option JsonValue) : Except String (CandidateInfo × EngineState) :=
  match parse_session_field sessionField with
  | .error e => .error e
  | .ok n =>
      .ok ({ candidate_name := candidate_name, candidate_id := candidate_id,
             session := n }, initState)

/-- The set of engine states reachable from `initState` by `submit_trial`
calls — the only operation that mutates the engine state (`start_session`,
`_state`, `new_sequence`, `calculate_corsi_span` read but never write, and
`save_session` writes only to the database). -/
inductive Reachable : EngineState → Prop
  | init : Reachable initState
  | step (s : EngineState) (sequence response : List Int) :
      Reachable s → Reachable (submit_trial s sequence response).1

/-- A span present in `results` qualifies for the Corsi span score when the
accuracy of its trials is at least 0.5 — the membership condition of the
`span_scores` dictionary in `calculate_corsi_span`. -/
def qualifies (results : List TrialRecord) (span : Nat) : Prop :=
  span ∈ spansOf results ∧ (1 : ℚ) / 2 ≤ accuracy (spanTrials results span)

/-! ### Helper lemmas -/

/-- All four branches of `submit_trial` produce the same results list: the
old one with the new record appended. -/
lemma submit_trial_fst_results (s : EngineState) (sequence response : List Int) :
    (submit_trial s sequence response).1.results = submitResults s sequence response := by
  unfold submit_trial
  split_ifs <;> rfl

/-- The returned `correct` flag is the ordered list comparison. -/
lemma submit_trial_snd (s : EngineState) (sequence response : List Int) :
    (submit_trial s sequence response).2 = (sequence == response) := by
  unfold submit_trial
  split_ifs <;> rfl

/-- Appending the new record adds exactly one entry to the current span's
trial list (the new record carries `span_length = s.current_span`). -/
lemma spanTrials_submitResults (s : EngineState) (sequence response : List Int) :
    spanTrials (submitResults s sequence response) s.current_span =
      spanTrials s.results s.current_span ++
        [{ span_length := s.current_span, trial_number := s.current_trial,
           sequence := sequence, response := response,
           correct := sequence == response }] := by
  simp [spanTrials, submitResults, List.filter_append]

/-- A span listed in `spansOf results` has at least one matching record. -/
lemma spanTrials_ne_nil_of_mem_spansOf (results : List TrialRecord) (span : Nat)
    (h : span ∈ spansOf results) : spanTrials results span ≠ [] := by
  rw [spansOf, List.mem_dedup] at h
  obtain ⟨r, hr, hspan⟩ := List.mem_map.mp h
  intro hnil
  have hmem : r ∈ spanTrials results span :=
    List.mem_filter.mpr ⟨hr, by simp [hspan]⟩
  rw [hnil] at hmem
  exact List.not_mem_nil r hmem

/-- The float comparison `accuracy >= 0.5` agrees with the integer
comparison `trial_count <= 2 * correct_count` on any nonempty trial list
(exact rational arithmetic; see the file header for the float argument). -/
lemma half_le_accuracy_iff (trials : List TrialRecord) (h : trials ≠ []) :
    (1 : ℚ) / 2 ≤ accuracy trials ↔ trials.length ≤ 2 * correctCount trials := by
  have hL : (0 : ℚ) < (trials.length : ℚ) := by
    exact_mod_cast List.length_pos.mpr h
  rw [accuracy, div_le_div_iff₀ (by norm_num) hL, one_mul, mul_comm]
  exact_mod_cast Iff.rfl

/-- `qualifyingSpans` rewritten with the integer accuracy test, for
kernel evaluation on concrete inputs. -/
lemma qualifyingSpans_eval (results : List TrialRecord) :
    qualifyingSpans results =
      (spansOf results).filter
        (fun span => decide ((spanTrials results span).length ≤
          2 * correctCount (spanTrials results span))) := by
  unfold qualifyingSpans
  apply List.filter_congr
  intro span hspan
  exact decide_eq_decide.mpr
    (half_le_accuracy_iff _ (spanTrials_ne_nil_of_mem_spansOf results span hspan))

/-- `calculate_corsi_span` rewritten with the integer accuracy test. -/
lemma calculate_corsi_span_eval (results : List TrialRecord) :
    calculate_corsi_span results =
      ((spansOf results).filter
        (fun span => decide ((spanTrials results span).length ≤
          2 * correctCount (spanTrials results span)))).foldr max 0 := by
  rw [calculate_corsi_span, qualifyingSpans_eval]

/-- Membership in `qualifyingSpans` is exactly `qualifies`. -/
lemma mem_qualifyingSpans_iff (results : List TrialRecord) (span : Nat) :
    span ∈ qualifyingSpans results ↔ qualifies results span := by
  simp [qualifyingSpans, qualifies, List.mem_filter]

/-- Every member of a list of naturals is bounded by its `foldr max 0`. -/
lemma le_foldr_max (l : List Nat) (a : Nat) (h : a ∈ l) : a ≤ l.foldr max 0 := by
  induction l with
  | nil => cases h
  | cons b t ih =>
      rcases List.mem_cons.mp h with h1 | h2
      · subst h1; exact le_max_left _ _
      · exact le_trans (ih h2) (le_max_right _ _)

/-- `foldr max 0` of a nonempty list of naturals is one of its members. -/
lemma foldr_max_mem (l : List Nat) (h : l ≠ []) : l.foldr max 0 ∈ l := by
  induction l with
  | nil => exact absurd rfl h
  | cons b t ih =>
      cases t with
      | nil => simp
      | cons c u =>
          have hm := ih (by simp)
          by_cases hb : (c :: u).foldr max 0 ≤ b
          · rw [List.foldr_cons, max_eq_left hb]
            exact List.mem_cons_self _ _
          · rw [List.foldr_cons, max_eq_right (le_of_not_le hb)]
            exact List.mem_cons_of_mem _ hm

/-- The inductive invariant of the engine state machine: the span stays in
`[MIN_SPAN, MAX_SPAN]`, the trial counter stays in `[1, TRIALS_PER_SPAN]`,
and the trial counter never runs ahead of the number of records already
collected at the current span by more than one. -/
def GoodState (s : EngineState) : Prop :=
  MIN_SPAN ≤ s.current_span ∧ s.current_span ≤ MAX_SPAN ∧
  1 ≤ s.current_trial ∧
  s.current_trial ≤ (spanTrials s.results s.current_span).length + 1 ∧
  s.current_trial ≤ TRIALS_PER_SPAN

lemma goodState_init : GoodState initState := by
  refine ⟨le_refl _, ?_, le_refl _, ?_, ?_⟩ <;> decide

lemma goodState_step (s : EngineState) (sequence response : List Int)
    (hs : GoodState s) : GoodState (submit_trial s sequence response).1 := by
  obtain ⟨h1, h2, h3, h4, h5⟩ := hs
  have hcnt : (spanTrials (submitResults s sequence response) s.current_span).length =
      (spanTrials s.results s.current_span).length + 1 := by
    rw [spanTrials_submitResults]; simp
  unfold submit_trial
  split_ifs with hc hz hlt
  · exact ⟨h1, h2, le_refl _, Nat.le_add_left _ _, by simp [TRIALS_PER_SPAN]⟩
  · exact ⟨Nat.le_succ_of_le h1, hlt, le_refl _, Nat.le_add_left _ _, by simp [TRIALS_PER_SPAN]⟩
  · exact ⟨h1, h2, le_refl _, Nat.le_add_left _ _, by simp [TRIALS_PER_SPAN]⟩
  · refine ⟨h1, h2, Nat.le_succ_of_le h3, ?_, ?_⟩
    · simpa [hcnt] using Nat.succ_le_succ h4
    · rw [hcnt] at hc
      simp only [TRIALS_PER_SPAN] at hc h5 ⊢
      omega

lemma reachable_goodState (s : EngineState) (h : Reachable s) : GoodState s := by
  induction h with
  | init => exact goodState_init
  | step s sequence response _ ih => exact goodState_step s sequence response ih

/-- `submit_trial` never assigns `finished = False`: once true it stays
true through any call. -/
lemma submit_trial_finished_mono (s : EngineState) (sequence response : List Int)
    (h : s.finished = true) : (submit_trial s sequence response).1.finished = true := by
  unfold submit_trial
  split_ifs <;> simp [h]

/-! ### Concrete example states -/

/-- The result set of spec property P4: span 4 with accuracy 1.0 (both
records correct) and span 5 with accuracy 0.0 (both incorrect, one of them
a short response). -/
def spanExample45 : List TrialRecord :=
  [ { span_length := 4, trial_number := 1, sequence := [0, 1, 2, 3],
      response := [0, 1, 2, 3], correct := true },
    { span_length := 4, trial_number := 2, sequence := [1, 2, 3, 4],
      response := [1, 2, 3, 4], correct := true },
    { span_length := 5, trial_number := 1, sequence := [0, 1, 2, 3, 4],
      response := [4, 3, 2, 1, 0], correct := false },
    { span_length := 5, trial_number := 2, sequence := [0, 1, 2, 3, 4],
      response := [], correct := false } ]

/-- The engine state after two incorrect responses at `MIN_SPAN` from the
initial state: the discontinue rule has fired, `finished = true`. -/
def finishedExample : EngineState :=
  (submit_trial (submit_trial initState [0, 1] [1, 0]).1 [0, 1] [2, 0]).1

/-- Two span-2 records, one correct: a small nonempty result set with
accuracy 1/2 for the finalization witness. -/
def demoResults : List TrialRecord :=
  [ { span_length := 2, trial_number := 1, sequence := [0, 1],
      response := [0, 1], correct := true },
    { span_length := 2, trial_number := 2, sequence := [1, 2],
      response := [2, 1], correct := false } ]

/-! ### Claim theorems -/

/-- Claim C1 (discontinue rule): from any unfinished engine state, if a
`submit_trial` call brings the number of recorded trials at the current
span to `TRIALS_PER_SPAN` and none of those records is correct, then
immediately after that call `finished = true`, `current_span` is
unchanged, and `current_trial` is reset to 1. -/
theorem submit_trial_discontinue (s : EngineState) (sequence response : List Int)
    (hfin : s.finished = false)
    (hcount : (spanTrials (submit_trial s sequence response).1.results
        s.current_span).length = TRIALS_PER_SPAN)
    (hzero : correctCount (spanTrials (submit_trial s sequence response).1.results
        s.current_span) = 0) :
    (submit_trial s sequence response).1.finished = true ∧
    (submit_trial s sequence response).1.current_span = s.current_span ∧
    (submit_trial s sequence response).1.current_trial = 1 := by
  rw [submit_trial_fst_results] at hcount hzero
  unfold submit_trial
  rw [if_pos (le_of_eq hcount.symm), if_pos hzero]
  exact ⟨rfl, rfl, rfl⟩

/-- Claim C1 witness: one incorrect trial at span 2 from the initial
state, then a second incorrect trial, fires the discontinue rule. -/
theorem submit_trial_discontinue_witness :
    (submit_trial (submit_trial initState [0, 1] [1, 0]).1 [0, 1] []).1.finished = true ∧
    (submit_trial (submit_trial initState [0, 1] [1, 0]).1 [0, 1] []).1.current_span =
      (submit_trial initState [0, 1] [1, 0]).1.current_span ∧
    (submit_trial (submit_trial initState [0, 1] [1, 0]).1 [0, 1] []).1.current_trial = 1 :=
  submit_trial_discontinue (submit_trial initState [0, 1] [1, 0]).1 [0, 1] []
    (by decide) (by decide) (by decide)

/-- Claim C2 (advancement): from any unfinished engine state with
`current_span < MAX_SPAN`, if a `submit_trial` call brings the number of
recorded trials at the current span to `TRIALS_PER_SPAN` and at least one
of those records is correct, then after the call the span is incremented,
the trial counter is reset to 1, and `finished` is still false. -/
theorem submit_trial_advancement (s : EngineState) (sequence response : List Int)
    (hfin : s.finished = false) (hlt : s.current_span < MAX_SPAN)
    (hcount : (spanTrials (submit_trial s sequence response).1.results
        s.current_span).length = TRIALS_PER_SPAN)
    (hsome : correctCount (spanTrials (submit_trial s sequence response).1.results
        s.current_span) ≠ 0) :
    (submit_trial s sequence response).1.current_span = s.current_span + 1 ∧
    (submit_trial s sequence response).1.current_trial = 1 ∧
    (submit_trial s sequence response).1.finished = false := by
  rw [submit_trial_fst_results] at hcount hsome
  unfold submit_trial
  rw [if_pos (le_of_eq hcount.symm), if_neg hsome, if_pos hlt]
  exact ⟨rfl, rfl, hfin⟩

/-- Claim C2 witness: one correct trial at span 2 from the initial state,
then a second (incorrect) trial, advances the span to 3. -/
theorem submit_trial_advancement_witness :
    (submit_trial (submit_trial initState [0, 1] [0, 1]).1 [1, 2] [2, 1]).1.current_span =
      (submit_trial initState [0, 1] [0, 1]).1.current_span + 1 ∧
    (submit_trial (submit_trial initState [0, 1] [0, 1]).1 [1, 2] [2, 1]).1.current_trial = 1 ∧
    (submit_trial (submit_trial initState [0, 1] [0, 1]).1 [1, 2] [2, 1]).1.finished = false :=
  submit_trial_advancement (submit_trial initState [0, 1] [0, 1]).1 [1, 2] [2, 1]
    (by decide) (by decide) (by decide) (by decide)

/-- Claim C3 (ceiling): from any unfinished engine state at
`current_span = MAX_SPAN`, if a `submit_trial` call brings the number of
recorded trials at `MAX_SPAN` to `TRIALS_PER_SPAN` and at least one of
those records is correct, then after the call `finished = true` and
`current_span` is still `MAX_SPAN` — it never exceeds it. -/
theorem submit_trial_ceiling (s : EngineState) (sequence response : List Int)
    (hfin : s.finished = false) (hmax : s.current_span = MAX_SPAN)
    (hcount : (spanTrials (submit_trial s sequence response).1.results
        s.current_span).length = TRIALS_PER_SPAN)
    (hsome : correctCount (spanTrials (submit_trial s sequence response).1.results
        s.current_span) ≠ 0) :
    (submit_trial s sequence response).1.finished = true ∧
    (submit_trial s sequence response).1.current_span = MAX_SPAN := by
  rw [submit_trial_fst_results] at hcount hsome
  unfold submit_trial
  rw [if_pos (le_of_eq hcount.symm), if_neg hsome, if_neg (by rw [hmax]; exact lt_irrefl _)]
  exact ⟨rfl, hmax⟩

/-- Claim C3 witness: a state at span 8 holding one correct span-8 record,
whose next span-8 submission reaches two trials with one correct. -/
theorem submit_trial_ceiling_witness :
    (submit_trial
      { results := [{ span_length := 8, trial_number := 1,
                      sequence := [0, 1, 2, 3, 4, 5, 6, 7],
                      response := [0, 1, 2, 3, 4, 5, 6, 7], correct := true }],
        current_span := 8, current_trial := 2, finished := false }
      [1, 2] [2, 1]).1.finished = true ∧
    (submit_trial
      { results := [{ span_length := 8, trial_number := 1,
                      sequence := [0, 1, 2, 3, 4, 5, 6, 7],
                      response := [0, 1, 2, 3, 4, 5, 6, 7], correct := true }],
        current_span := 8, current_trial := 2, finished := false }
      [1, 2] [2, 1]).1.current_span = MAX_SPAN :=
  submit_trial_ceiling _ [1, 2] [2, 1] (by decide) (by decide) (by decide) (by decide)

/-- Claim C4 (span score): `calculate_corsi_span` returns the maximum span
whose records have accuracy at least 0.5, and 0 when no span qualifies —
including on the empty result list; on the P4 result set (span 4 accuracy
1.0, span 5 accuracy 0.0) it returns 4. -/
theorem calculate_corsi_span_spec (results : List TrialRecord) :
    ((∃ span, qualifies results span) →
        qualifies results (calculate_corsi_span results) ∧
        ∀ span, qualifies results span → span ≤ calculate_corsi_span results) ∧
    ((¬ ∃ span, qualifies results span) → calculate_corsi_span results = 0) ∧
    calculate_corsi_span [] = 0 ∧
    calculate_corsi_span spanExample45 = 4 := by
  refine ⟨?_, ?_, rfl, ?_⟩
  · rintro ⟨sp, hsp⟩
    have hne : qualifyingSpans results ≠ [] := by
      intro hnil
      have hmem := (mem_qualifyingSpans_iff results sp).mpr hsp
      rw [hnil] at hmem
      exact List.not_mem_nil _ hmem
    constructor
    · exact (mem_qualifyingSpans_iff results _).mp (foldr_max_mem _ hne)
    · intro span h
      exact le_foldr_max _ _ ((mem_qualifyingSpans_iff results span).mpr h)
  · intro h
    have hnil : qualifyingSpans results = [] := by
      rw [List.eq_nil_iff_forall_not_mem]
      intro sp hsp
      exact h ⟨sp, (mem_qualifyingSpans_iff results sp).mp hsp⟩
    rw [calculate_corsi_span, hnil]
    rfl
  · rw [calculate_corsi_span_eval]
    decide

/-- Claim C4 witness: on the P4 result set, span 4 qualifies, the returned
score itself qualifies, and it is at least 4. -/
theorem calculate_corsi_span_spec_witness :
    qualifies spanExample45 (calculate_corsi_span spanExample45) ∧
    4 ≤ calculate_corsi_span spanExample45 := by
  have hq : qualifies spanExample45 4 :=
    ⟨by decide, (half_le_accuracy_iff _ (by decide)).mpr (by decide)⟩
  have h := (calculate_corsi_span_spec spanExample45).1 ⟨4, hq⟩
  exact ⟨h.1, h.2 4 hq⟩

/-- Claim C5 (order sensitivity): `submit_trial` records
`correct = true` exactly when the response equals the sequence as ordered
lists; a response of different length is scored false, and
`submit_trial([2,5,1], [2,1,5])` is scored false. -/
theorem submit_trial_order_sensitivity (s : EngineState) (sequence response : List Int) :
    ((submit_trial s sequence response).2 = true ↔ sequence = response) ∧
    (sequence.length ≠ response.length → (submit_trial s sequence response).2 = false) ∧
    ((submit_trial s sequence response).1.results =
      s.results ++ [{ span_length := s.current_span, trial_number := s.current_trial,
                      sequence := sequence, response := response,
                      correct := (submit_trial s sequence response).2 }]) ∧
    (submit_trial s [2, 5, 1] [2, 1, 5]).2 = false := by
  refine ⟨?_, ?_, ?_, ?_⟩
  · rw [submit_trial_snd]
    exact beq_iff_eq
  · intro h
    rw [submit_trial_snd, beq_eq_false_iff_ne]
    exact fun heq => h (congrArg List.length heq)
  · rw [submit_trial_fst_results, submit_trial_snd]
    rfl
  · rw [submit_trial_snd]
    rfl

/-- Claim C5 witness: a too-short response from the initial state is
scored incorrect. -/
theorem submit_trial_order_sensitivity_witness :
    (submit_trial initState [1, 2] [1]).2 = false :=
  (submit_trial_order_sensitivity initState [1, 2] [1]).2.1 (by decide)

/-- Claim C6 counterexample: after the discontinue rule fires
(`finishedExample.finished = true`), a further `submit_trial` call still
appends a record — the call is neither a failure nor a no-op, so the claim
that the engine rejects post-finish submissions is false on the code. -/
theorem post_finish_rejection_counterexample :
    finishedExample.finished = true ∧
    (submit_trial finishedExample [0, 1, 2] [0, 1, 2]).1.results.length =
      finishedExample.results.length + 1 := by
  decide

/-- Claim C6 amended: once `finished = true`, a subsequent `submit_trial`
call is processed like any other — it appends exactly one new record to
`results` (and `finished` remains true); the engine does not gate on the
finished flag. -/
theorem submit_trial_after_finish (s : EngineState) (sequence response : List Int)
    (h : s.finished = true) :
    (submit_trial s sequence response).1.results =
      s.results ++ [{ span_length := s.current_span, trial_number := s.current_trial,
                      sequence := sequence, response := response,
                      correct := sequence == response }] ∧
    (submit_trial s sequence response).1.finished = true :=
  ⟨by rw [submit_trial_fst_results]; rfl, submit_trial_finished_mono s sequence response h⟩

/-- Claim C6 amended witness: the post-discontinue state accepts another
submission and appends it. -/
theorem submit_trial_after_finish_witness :
    (submit_trial finishedExample [9] [9]).1.results =
      finishedExample.results ++
        [{ span_length := finishedExample.current_span,
           trial_number := finishedExample.current_trial,
           sequence := [9], response := [9],
           correct := (([9] : List Int) == [9]) }] ∧
    (submit_trial finishedExample [9] [9]).1.finished = true :=
  submit_trial_after_finish finishedExample [9] [9] (by decide)

/-- Claim C7 (state invariants): every state reachable from the initial
state by `submit_trial` calls keeps `MIN_SPAN ≤ current_span ≤ MAX_SPAN`
while unfinished and `1 ≤ current_trial ≤ TRIALS_PER_SPAN`; moreover any
single call from such a state never reverts `finished` from true to false
and only appends to `results` (existing records are neither removed nor
reordered). -/
theorem engine_state_invariants (s : EngineState) (h : Reachable s) :
    (s.finished = false → MIN_SPAN ≤ s.current_span ∧ s.current_span ≤ MAX_SPAN) ∧
    1 ≤ s.current_trial ∧ s.current_trial ≤ TRIALS_PER_SPAN ∧
    (∀ sequence response,
      (s.finished = true → (submit_trial s sequence response).1.finished = true) ∧
      (submit_trial s sequence response).1.results =
        s.results ++ [{ span_length := s.current_span, trial_number := s.current_trial,
                        sequence := sequence, response := response,
                        correct := sequence == response }]) := by
  obtain ⟨h1, h2, h3, _, h5⟩ := reachable_goodState s h
  exact ⟨fun _ => ⟨h1, h2⟩, h3, h5, fun sequence response =>
    ⟨submit_trial_finished_mono s sequence response,
     by rw [submit_trial_fst_results]; rfl⟩⟩

/-- Claim C7 witness: the invariants instantiated at the initial state
(reachable by construction) and one concrete submission from it. -/
theorem engine_state_invariants_witness :
    (MIN_SPAN ≤ initState.current_span ∧ initState.current_span ≤ MAX_SPAN) ∧
    1 ≤ initState.current_trial ∧ initState.current_trial ≤ TRIALS_PER_SPAN ∧
    (submit_trial initState [0, 1] [1, 0]).1.results =
      initState.results ++
        [{ span_length := initState.current_span,
           trial_number := initState.current_trial,
           sequence := [0, 1], response := [1, 0],
           correct := (([0, 1] : List Int) == [1, 0]) }] := by
  have h := engine_state_invariants initState Reachable.init
  exact ⟨h.1 rfl, h.2.1, h.2.2.1, (h.2.2.2 [0, 1] [1, 0]).2⟩

/-- Claim C8 (finalization): `save_session` on an empty results list
produces no summary; on a nonempty list it produces a summary with
`total_trials` the number of records, `correct_trials` the number of
correct records, `accuracy` equal to `100 × correct_trials / total_trials`
and `corsi_span` the computed span score. -/
theorem save_session_spec (results : List TrialRecord) (n : Int) :
    (results = [] → save_session results n = none) ∧
    (results ≠ [] →
      save_session results n =
        some { session_number := n,
               corsi_span := calculate_corsi_span results,
               total_trials := results.length,
               correct_trials := correctCount results,
               accuracy := 100 * (correctCount results : ℚ) / (results.length : ℚ) }) := by
  constructor
  · intro h
    simp [save_session, h]
  · intro h
    have hacc : ((correctCount results : ℚ) / (results.length : ℚ)) * 100 =
        100 * (correctCount results : ℚ) / (results.length : ℚ) := by
      ring
    rw [save_session, if_neg (by simpa [List.isEmpty_iff] using h), hacc]

/-- Claim C8 witness: the two-record demo result set (one correct record)
finalizes to the expected concrete summary. -/
theorem save_session_spec_witness :
    save_session demoResults 3 =
      some { session_number := 3, corsi_span := 2, total_trials := 2,
             correct_trials := 1,
             accuracy := 100 * ((1 : Nat) : ℚ) / ((2 : Nat) : ℚ) } := by
  have h := (save_session_spec demoResults 3).2 (by decide)
  rw [h]
  have h1 : correctCount demoResults = 1 := by decide
  have h2 : demoResults.length = 2 := by decide
  have h3 : calculate_corsi_span demoResults = 2 := by
    rw [calculate_corsi_span_eval]
    decide
  rw [h1, h2, h3]

/-- Claim C9 counterexample: a start-session request with the non-positive
session number 0 is NOT rejected — the backend endpoint accepts it and
constructs a fresh engine, refuting the claim that non-positive session
numbers are validation failures caught before any engine work begins. -/
theorem session_validation_counterexample :
    start_session "Alice" "C001" (some (JsonValue.jint 0)) =
      Except.ok ({ candidate_name := "Alice", candidate_id := "C001", session := 0 },
        initState) ∧
    ¬ (1 ≤ (0 : Int)) :=
  ⟨rfl, by decide⟩

/-- Claim C9 amended: a missing session number defaults to 1 and a
non-integer session value is rejected by request-body validation before
any engine state is constructed, but any integer session number —
including non-positive ones — is accepted by the backend start-session
endpoint, which then constructs an engine unconditionally; the positivity
check (`session ≥ 1`) lives only in `validate_candidate_info`, used by the
desktop flow and not by this endpoint. -/
theorem session_validation_amended :
    (∀ name id, start_session name id none =
        Except.ok ({ candidate_name := name, candidate_id := id, session := 1 },
          initState)) ∧
    (∀ name id str, py_int? str = none →
        start_session name id (some (JsonValue.jstr str)) =
          Except.error "value is not a valid integer") ∧
    (∀ name id, start_session name id (some JsonValue.jnull) =
        Except.error "none is not an allowed value") ∧
    (∀ name id n, start_session name id (some (JsonValue.jint n)) =
        Except.ok ({ candidate_name := name, candidate_id := id, session := n },
          initState)) ∧
    (∀ name id sess n, validate_candidate_info name id sess = true →
        py_int? sess = some n → 1 ≤ n) := by
  refine ⟨fun name id => rfl, ?_, fun name id => rfl, fun name id n => rfl, ?_⟩
  · intro name id str h
    simp [start_session, parse_session_field, h]
  · intro name id sess n hv hparse
    unfold validate_candidate_info at hv
    split_ifs at hv
    rw [hparse] at hv
    exact of_decide_eq_true hv

/-- Claim C9 amended witness: concrete instances — default 1, rejection of
a non-numeric string, acceptance of the integer 0, and the desktop
validator requiring positivity on a parsed session string. -/
theorem session_validation_amended_witness :
    start_session "A" "B" none =
      Except.ok ({ candidate_name := "A", candidate_id := "B", session := 1 },
        initState) ∧
    start_session "A" "B" (some (JsonValue.jstr "abc")) =
      Except.error "value is not a valid integer" ∧
    start_session "A" "B" (some (JsonValue.jint 0)) =
      Except.ok ({ candidate_name := "A", candidate_id := "B", session := 0 },
        initState) ∧
    (1 : Int) ≤ 5 := by
  have h := session_validation_amended
  exact ⟨h.1 "A" "B", h.2.1 "A" "B" "abc" (by decide), h.2.2.2.1 "A" "B" 0,
    h.2.2.2.2 "A" "B" "5" 5 (by decide) (by decide)⟩

/-- Claim C10 (no division by zero): every span the span-score computation
divides over is drawn from the spans present in `results` and therefore
has a positive trial count, and the finalization division only happens on
a nonempty results list — so no engine operation divides by zero. -/
theorem no_division_by_zero (results : List TrialRecord) :
    (∀ span ∈ spansOf results, (spanTrials results span).length ≠ 0) ∧
    (∀ n summary, save_session results n = some summary → results.length ≠ 0) := by
  constructor
  · intro span hspan hlen
    exact spanTrials_ne_nil_of_mem_spansOf results span hspan
      (List.length_eq_zero.mp hlen)
  · intro n summary hsome hlen
    rw [List.length_eq_zero.mp hlen] at hsome
    simp [save_session] at hsome

/-- Claim C10 witness: in the demo result set, the single present span has
a positive trial count. -/
theorem no_division_by_zero_witness :
    (spanTrials demoResults 2).length ≠ 0 :=
  (no_division_by_zero demoResults).1 2 (by decide)

end Corsi
